import Mathlib

/-!
Shallow embedding of `src/app/models.py` of the og-digital-works-dashboard
repository: the persistent data model (User, Expert, Sale, OperationalCost,
FinancialReport), the transfer schemas (`*Create`, `*Update`) with their
field constraints, and the boundary operations the specification describes
around them (validation, persistence, uniqueness-enforcing insertion,
partial patching, report generation, serialization).

Conventions of the embedding:
- Python `Decimal` fields all carry `decimal_places=2` in the source, so a
  decimal value is embedded by value as an integer number of hundredths
  (`Cents := Int`): `Decimal("62.50")` is `6250`, `Decimal("50.0")` — which
  is numerically equal to 50.00 — is `5000`.  A `max_digits=d` constraint
  on such a field becomes `|hundredths| < 10 ^ d`.
- `datetime` values are opaque timestamps (`DateTime := Nat`).
- JSON-typed columns (`Dict[str, Any]`) are association lists of `Json`
  values; `Dict[str, str]` columns are association lists of strings.
- Pydantic validation of a `table=False` schema is a function returning
  `Except ValidationError` where `ValidationError` names the offending
  field; fields are checked in declaration order, mirroring the source.
-/

/-- Integer number of hundredths: the value of a Python `Decimal` with
`decimal_places=2`.  Exact by construction — no floating point anywhere. -/
abbrev Cents := Int

/-- Opaque timestamp standing for a Python `datetime`. -/
abbrev DateTime := Nat

/-- JSON value tree used for the `Dict`-typed columns and for the
serialized wire form.  Decimals keep their exact hundredths value
(`Json.dec`), distinct from integers and never a float. -/
inductive Json where
  | null : Json
  | bool : Bool → Json
  | str : String → Json
  | int : Int → Json
  | dec : Cents → Json
  | strMap : List (String × String) → Json
  | obj : List (String × Json) → Json

/-- `Dict[str, Any]` column content. -/
abbrev JsonMap := List (String × Json)

/-- `class UserRole(str, Enum)` (src/app/models.py lines 9-12). -/
inductive UserRole where
  | ADMIN
  | MANAGER
  | EXPERT
deriving DecidableEq, Repr

/-- `class ExpertStatus(str, Enum)` (lines 15-19). -/
inductive ExpertStatus where
  | ACTIVE
  | INACTIVE
  | PENDING
  | SUSPENDED
deriving DecidableEq, Repr

/-- `class CostCategory(str, Enum)` (lines 22-27). -/
inductive CostCategory where
  | MARKETING
  | OPERATIONS
  | TECHNOLOGY
  | SUPPORT
  | OTHER
deriving DecidableEq, Repr

/-- `class TransactionType(str, Enum)` (lines 30-33). -/
inductive TransactionType where
  | SALE
  | REFUND
  | ADJUSTMENT
deriving DecidableEq, Repr

/-- The string value of each `ExpertStatus` member. -/
def expertStatusToString : ExpertStatus → String
  | ExpertStatus.ACTIVE => "active"
  | ExpertStatus.INACTIVE => "inactive"
  | ExpertStatus.PENDING => "pending"
  | ExpertStatus.SUSPENDED => "suspended"

/-- Inverse lookup of `expertStatusToString`. -/
def expertStatusOfString : String → Option ExpertStatus
  | "active" => some ExpertStatus.ACTIVE
  | "inactive" => some ExpertStatus.INACTIVE
  | "pending" => some ExpertStatus.PENDING
  | "suspended" => some ExpertStatus.SUSPENDED
  | _ => none

/-- The string value of each `CostCategory` member. -/
def costCategoryToString : CostCategory → String
  | CostCategory.MARKETING => "marketing"
  | CostCategory.OPERATIONS => "operations"
  | CostCategory.TECHNOLOGY => "technology"
  | CostCategory.SUPPORT => "support"
  | CostCategory.OTHER => "other"

/-- Characters allowed by `[a-zA-Z0-9_.+-]` — the local part of the
email regex `^[a-zA-Z0-9_.+-]+@[a-zA-Z0-9-]+\.[a-zA-Z0-9-.]+$`. -/
def isLocalChar (c : Char) : Bool :=
  c.isAlpha || c.isDigit || c = '_' || c = '.' || c = '+' || c = '-'

/-- Characters allowed by `[a-zA-Z0-9-]` — the first domain label of
the email regex. -/
def isDomainChar (c : Char) : Bool :=
  c.isAlpha || c.isDigit || c = '-'

/-- Characters allowed by `[a-zA-Z0-9-.]` — the tail of the domain in
the email regex. -/
def isTailChar (c : Char) : Bool :=
  c.isAlpha || c.isDigit || c = '-' || c = '.'

/-- Match of the anchored fragment `[a-zA-Z0-9-]+\.[a-zA-Z0-9-.]+`
against the part after `@`.  Since `[a-zA-Z0-9-]` contains no dot, the
literal `\.` of any successful match is necessarily the first dot of the
string, so splitting at the first dot is a complete decision procedure. -/
def domainMatches (cs : List Char) : Bool :=
  let pre := cs.takeWhile (fun c => c ≠ '.')
  let rest := cs.dropWhile (fun c => c ≠ '.')
  match rest with
  | '.' :: tail =>
      !pre.isEmpty && pre.all isDomainChar && !tail.isEmpty && tail.all isTailChar
  | _ => false

/-- Full anchored match of the email regex
`^[a-zA-Z0-9_.+-]+@[a-zA-Z0-9-]+\.[a-zA-Z0-9-.]+$` of
src/app/models.py lines 41, 192 and 209.  No character class contains
`@`, so the `@` of any successful match is the first `@` of the string:
splitting there is a complete decision procedure. -/
def emailRegexMatches (s : String) : Bool :=
  let cs := s.toList
  let localPart := cs.takeWhile (fun c => c ≠ '@')
  let rest := cs.dropWhile (fun c => c ≠ '@')
  match rest with
  | '@' :: domain =>
      !localPart.isEmpty && localPart.all isLocalChar && domainMatches domain
  | _ => false

/-- Structured validation failure naming the offending field, the
`ValidationError` kind of spec section 7. -/
structure ValidationError where
  field : String
deriving DecidableEq, Repr

/-- `class User(SQLModel, table=True)` (lines 37-55).  Relationship
attributes are back-references resolved by the storage layer, not
columns, and are omitted; foreign keys are kept. -/
structure User where
  id : Option Int := none
  email : String
  password_hash : String
  name : String
  role : UserRole := UserRole.EXPERT
  is_active : Bool := true
  permissions : JsonMap := []
  created_at : DateTime
  updated_at : DateTime

/-- `class Expert(SQLModel, table=True)` (lines 58-97).  The default of
`revenue_split_percentage` is `Decimal("50.0")`, numerically 50.00,
hence `5000` hundredths. -/
structure Expert where
  id : Option Int := none
  business_name : String
  expert_name : String
  email : String
  phone : Option String := none
  status : ExpertStatus := ExpertStatus.PENDING
  partnership_start_date : DateTime
  revenue_split_percentage : Cents := 5000
  business_description : Option String := none
  website : Option String := none
  social_media : List (String × String) := []
  subdomain : Option String := none
  branding_config : JsonMap := []
  owner_id : Option Int := none
  created_by_id : Int
  created_at : DateTime
  updated_at : DateTime

/-- `class Sale(SQLModel, table=True)` (lines 100-125). -/
structure Sale where
  id : Option Int := none
  expert_id : Int
  transaction_type : TransactionType := TransactionType.SALE
  gross_amount : Cents
  net_amount : Cents
  product_name : Option String := none
  product_category : Option String := none
  quantity : Int := 1
  customer_id : Option String := none
  customer_country : Option String := none
  sale_date : DateTime
  created_at : DateTime

/-- `class OperationalCost(SQLModel, table=True)` (lines 128-154). -/
structure OperationalCost where
  id : Option Int := none
  expert_id : Int
  created_by_id : Int
  category : CostCategory
  description : String
  amount : Cents
  cost_date : DateTime
  is_recurring : Bool := false
  recurring_frequency : Option String := none
  external_reference : Option String := none
  notes : Option String := none
  created_at : DateTime
  updated_at : DateTime

/-- `class FinancialReport(SQLModel, table=True)` (lines 157-187). -/
structure FinancialReport where
  id : Option Int := none
  expert_id : Int
  period_start : DateTime
  period_end : DateTime
  report_type : String
  gross_revenue : Cents
  total_costs : Cents
  net_profit : Cents
  og_share : Cents
  expert_share : Cents
  total_sales_count : Int := 0
  average_sale_value : Cents := 0
  cost_breakdown : List (String × Cents) := []
  generated_at : DateTime
  is_finalized : Bool := false

/-- `class UserCreate(SQLModel, table=False)` (lines 191-196). -/
structure UserCreate where
  email : String
  password : String
  name : String
  role : UserRole := UserRole.EXPERT
  permissions : JsonMap := []

/-- `class UserUpdate(SQLModel, table=False)` (lines 199-203). -/
structure UserUpdate where
  name : Option String := none
  role : Option UserRole := none
  is_active : Option Bool := none
  permissions : Option JsonMap := none

/-- `class ExpertCreate(SQLModel, table=False)` (lines 206-214). -/
structure ExpertCreate where
  business_name : String
  expert_name : String
  email : String
  phone : Option String := none
  business_description : Option String := none
  website : Option String := none
  revenue_split_percentage : Cents := 5000
  subdomain : Option String := none

/-- `class ExpertUpdate(SQLModel, table=False)` (lines 217-226).  Note
that unlike `ExpertCreate.email`, the `email` field carries no regex
(line 220). -/
structure ExpertUpdate where
  business_name : Option String := none
  expert_name : Option String := none
  email : Option String := none
  phone : Option String := none
  status : Option ExpertStatus := none
  business_description : Option String := none
  website : Option String := none
  revenue_split_percentage : Option Cents := none
  branding_config : Option JsonMap := none

/-- `class SaleCreate(SQLModel, table=False)` (lines 229-239). -/
structure SaleCreate where
  expert_id : Int
  transaction_type : TransactionType := TransactionType.SALE
  gross_amount : Cents
  net_amount : Cents
  product_name : Option String := none
  product_category : Option String := none
  quantity : Int := 1
  customer_id : Option String := none
  customer_country : Option String := none
  sale_date : Option DateTime := none

/-- `class OperationalCostCreate(SQLModel, table=False)` (lines 242-251). -/
structure OperationalCostCreate where
  expert_id : Int
  category : CostCategory
  description : String
  amount : Cents
  cost_date : Option DateTime := none
  is_recurring : Bool := false
  recurring_frequency : Option String := none
  external_reference : Option String := none
  notes : Option String := none

/-- `class OperationalCostUpdate(SQLModel, table=False)` (lines 254-262):
all fields optional, partial-patch semantics. -/
structure OperationalCostUpdate where
  category : Option CostCategory := none
  description : Option String := none
  amount : Option Cents := none
  cost_date : Option DateTime := none
  is_recurring : Option Bool := none
  recurring_frequency : Option String := none
  external_reference : Option String := none
  notes : Option String := none

/-- Bound of a `max_digits=d, decimal_places=2` constraint on the
hundredths embedding: the unscaled coefficient has at most `d` digits. -/
def decimalDigitsOk (v : Cents) (maxDigits : Nat) : Bool :=
  v.natAbs < 10 ^ maxDigits

/-- `max_length` check of a required string field. -/
def lenOk (s : String) (maxLen : Nat) : Bool :=
  s.length ≤ maxLen

/-- `max_length` check of an optional string field (vacuous when unset,
as in pydantic). -/
def optLenOk (s : Option String) (maxLen : Nat) : Bool :=
  match s with
  | none => true
  | some v => v.length ≤ maxLen

/-- Pydantic validation of `UserCreate` (lines 191-196): `email` has
`max_length=255` and the email regex, `password` has `min_length=8,
max_length=100`, `name` has `max_length=100`; `role` and `permissions`
carry no constraint.  Fields are checked in declaration order and the
first violated constraint is reported with its field name. -/
def validateUserCreate (p : UserCreate) : Except ValidationError UserCreate :=
  if !lenOk p.email 255 then Except.error ⟨"email"⟩
  else if !emailRegexMatches p.email then Except.error ⟨"email"⟩
  else if p.password.length < 8 then Except.error ⟨"password"⟩
  else if p.password.length > 100 then Except.error ⟨"password"⟩
  else if !lenOk p.name 100 then Except.error ⟨"name"⟩
  else Except.ok p

/-- Pydantic validation of `ExpertCreate` (lines 206-214): length bounds,
the email regex on `email`, and `max_digits=5, decimal_places=2` on
`revenue_split_percentage`.  No range check against [0,100] appears in
the source. -/
def validateExpertCreate (p : ExpertCreate) : Except ValidationError ExpertCreate :=
  if !lenOk p.business_name 200 then Except.error ⟨"business_name"⟩
  else if !lenOk p.expert_name 100 then Except.error ⟨"expert_name"⟩
  else if !lenOk p.email 255 then Except.error ⟨"email"⟩
  else if !emailRegexMatches p.email then Except.error ⟨"email"⟩
  else if !optLenOk p.phone 20 then Except.error ⟨"phone"⟩
  else if !optLenOk p.business_description 1000 then Except.error ⟨"business_description"⟩
  else if !optLenOk p.website 255 then Except.error ⟨"website"⟩
  else if !decimalDigitsOk p.revenue_split_percentage 5 then Except.error ⟨"revenue_split_percentage"⟩
  else if !optLenOk p.subdomain 50 then Except.error ⟨"subdomain"⟩
  else Except.ok p

/-- Pydantic validation of `ExpertUpdate` (lines 217-226): only length
and digit bounds on the fields that are set.  `email` (line 220) has
`max_length=255` and no regex; no range check on
`revenue_split_percentage`. -/
def validateExpertUpdate (p : ExpertUpdate) : Except ValidationError ExpertUpdate :=
  if !optLenOk p.business_name 200 then Except.error ⟨"business_name"⟩
  else if !optLenOk p.expert_name 100 then Except.error ⟨"expert_name"⟩
  else if !optLenOk p.email 255 then Except.error ⟨"email"⟩
  else if !optLenOk p.phone 20 then Except.error ⟨"phone"⟩
  else if !optLenOk p.business_description 1000 then Except.error ⟨"business_description"⟩
  else if !optLenOk p.website 255 then Except.error ⟨"website"⟩
  else if !(match p.revenue_split_percentage with
            | none => true
            | some v => decimalDigitsOk v 5) then Except.error ⟨"revenue_split_percentage"⟩
  else Except.ok p

/-- Persistence of an accepted `UserCreate` payload into a `User` row:
the boundary copies `email`, `name`, `role` and `permissions`, stores a
hash of the password, and sets the server-managed fields (id,
timestamps, `is_active=True` default of line 45). -/
def mkUser (p : UserCreate) (hash : String) (rowId : Int) (now : DateTime) : User :=
  { id := some rowId, email := p.email, password_hash := hash, name := p.name,
    role := p.role, is_active := true, permissions := p.permissions,
    created_at := now, updated_at := now }

/-- Persistence of an accepted `ExpertCreate` payload into an `Expert`
row: payload fields are copied, server-managed fields are set, `status`
takes the `PENDING` default of line 66 and the JSON mappings start empty
(lines 75, 79). -/
def mkExpert (p : ExpertCreate) (creatorId : Int) (rowId : Int) (now : DateTime) : Expert :=
  { id := some rowId, business_name := p.business_name, expert_name := p.expert_name,
    email := p.email, phone := p.phone, status := ExpertStatus.PENDING,
    partnership_start_date := now,
    revenue_split_percentage := p.revenue_split_percentage,
    business_description := p.business_description, website := p.website,
    social_media := [], subdomain := p.subdomain, branding_config := [],
    owner_id := none, created_by_id := creatorId, created_at := now, updated_at := now }

/-- Outcome kinds of the storage engine, from spec section 7. -/
inductive StoreError where
  | uniquenessConflict
  | referentialIntegrityError
  | notFoundError
deriving DecidableEq, Repr

/-- Modelled from the spec: the storage engine itself is not in the
source ("persistence … the responsibility of the external storage
engine").  Its state is the persisted rows of the two tables with unique
columns. -/
structure Store where
  users : List User
  experts : List Expert

/-- Modelled from the spec: insertion of a `User` row under the
`unique=True` constraint on `users.email` (line 41) — "Creating two
Users … with the same email … yields `UniquenessConflict` on the
second".  Returns the resulting state and the outcome; on conflict the
state is returned unchanged. -/
def insertUser (st : Store) (u : User) : Store × Except StoreError Unit :=
  if st.users.any (fun v => v.email == u.email) then
    (st, Except.error StoreError.uniquenessConflict)
  else
    ({ st with users := st.users ++ [u] }, Except.ok ())

/-- Modelled from the spec: insertion of an `Expert` row under the
`unique=True` constraint on `experts.subdomain` (line 78).  As in SQL,
only non-null subdomains conflict. -/
def insertExpert (st : Store) (e : Expert) : Store × Except StoreError Unit :=
  if e.subdomain.isSome && st.experts.any (fun f => f.subdomain == e.subdomain) then
    (st, Except.error StoreError.uniquenessConflict)
  else
    ({ st with experts := st.experts ++ [e] }, Except.ok ())

/-- Patch field combinator for required target fields: a set patch field
overrides, an unset one leaves the stored value untouched. -/
def patchField (p : Option α) (old : α) : α :=
  match p with
  | some v => v
  | none => old

/-- Patch field combinator for optional target fields. -/
def patchOptField (p : Option α) (old : Option α) : Option α :=
  match p with
  | some v => some v
  | none => old

/-- Modelled from the spec: application of an `OperationalCostUpdate`
partial patch by the boundary layer — "only fields present are applied;
omitted fields are untouched".  Server-managed fields (id, foreign keys,
timestamps) are not part of the patch schema and are kept. -/
def applyOperationalCostUpdate (c : OperationalCost) (p : OperationalCostUpdate) :
    OperationalCost :=
  { c with
    category := patchField p.category c.category,
    description := patchField p.description c.description,
    amount := patchField p.amount c.amount,
    cost_date := patchField p.cost_date c.cost_date,
    is_recurring := patchField p.is_recurring c.is_recurring,
    recurring_frequency := patchOptField p.recurring_frequency c.recurring_frequency,
    external_reference := patchOptField p.external_reference c.external_reference,
    notes := patchOptField p.notes c.notes }

/-- Sum of the `amount` of the costs in a given category, for the
`cost_breakdown` mapping of `FinancialReport` (line 180). -/
def categoryTotal (costs : List OperationalCost) (cat : CostCategory) : Cents :=
  ((costs.filter (fun c => c.category = cat)).map (fun c => c.amount)).sum

/-- All `CostCategory` members in declaration order. -/
def allCostCategories : List CostCategory :=
  [CostCategory.MARKETING, CostCategory.OPERATIONS, CostCategory.TECHNOLOGY,
   CostCategory.SUPPORT, CostCategory.OTHER]

/-- Modelled from the spec: the report generator is absent from the
source ("the report-generation logic (external/absent)"); it is modelled
from the stated field semantics and the section-8 example scenario:
`gross_revenue` is the sum of the period's `net_amount`s (the example
counts the 900.00 net of a 1000.00-gross sale as revenue), `total_costs`
the sum of cost `amount`s, `net_profit = gross_revenue - total_costs`,
`expert_share` is `revenue_split_percentage` percent of net profit, and
`og_share` the remainder.  Percentages are hundredths, so the share is
`net_profit * split / 10000`. -/
def generateFinancialReport (ex : Expert) (sales : List Sale)
    (costs : List OperationalCost) (periodStart periodEnd : DateTime)
    (reportType : String) (now : DateTime) : FinancialReport :=
  let gross := (sales.map (fun s => s.net_amount)).sum
  let totalCosts := (costs.map (fun c => c.amount)).sum
  let netProfit := gross - totalCosts
  let expertShare := netProfit * ex.revenue_split_percentage / 10000
  let ogShare := netProfit - expertShare
  { id := none, expert_id := ex.id.getD 0, period_start := periodStart,
    period_end := periodEnd, report_type := reportType,
    gross_revenue := gross, total_costs := totalCosts, net_profit := netProfit,
    og_share := ogShare, expert_share := expertShare,
    total_sales_count := sales.length,
    average_sale_value := if sales.length = 0 then 0 else gross / (sales.length : Int),
    cost_breakdown := allCostCategories.map
      (fun cat => (costCategoryToString cat, categoryTotal costs cat)),
    generated_at := now, is_finalized := false }

/-- Json encoding of an optional integer column. -/
def jsonOfOptInt : Option Int → Json
  | none => Json.null
  | some n => Json.int n

/-- Json decoding of an optional integer column. -/
def optIntOfJson : Json → Option (Option Int)
  | Json.null => some none
  | Json.int n => some (some n)
  | _ => none

/-- Json encoding of an optional string column. -/
def jsonOfOptStr : Option String → Json
  | none => Json.null
  | some s => Json.str s

/-- Json decoding of an optional string column. -/
def optStrOfJson : Json → Option (Option String)
  | Json.null => some none
  | Json.str s => some (some s)
  | _ => none

/-- Modelled from the spec: serialization of an `Expert` row to its wire
form — "decimals as fixed-point with specified precision/scale; JSON-typed
columns … must round-trip without loss", "must not be coerced to
floating-point on (de)serialization".  Fields appear in declaration
order; the decimal `revenue_split_percentage` is carried exactly
(`Json.dec`), never as a float. -/
def serializeExpert (e : Expert) : Json :=
  Json.obj
    [("id", jsonOfOptInt e.id),
     ("business_name", Json.str e.business_name),
     ("expert_name", Json.str e.expert_name),
     ("email", Json.str e.email),
     ("phone", jsonOfOptStr e.phone),
     ("status", Json.str (expertStatusToString e.status)),
     ("partnership_start_date", Json.int (e.partnership_start_date : Int)),
     ("revenue_split_percentage", Json.dec e.revenue_split_percentage),
     ("business_description", jsonOfOptStr e.business_description),
     ("website", jsonOfOptStr e.website),
     ("social_media", Json.strMap e.social_media),
     ("subdomain", jsonOfOptStr e.subdomain),
     ("branding_config", Json.obj e.branding_config),
     ("owner_id", jsonOfOptInt e.owner_id),
     ("created_by_id", Json.int e.created_by_id),
     ("created_at", Json.int (e.created_at : Int)),
     ("updated_at", Json.int (e.updated_at : Int))]

/-- Modelled from the spec: deserialization of the wire form produced by
`serializeExpert`, recovering every field exactly; any other shape is
rejected. -/
def deserializeExpert : Json → Option Expert
  | Json.obj
      [("id", ji),
       ("business_name", Json.str bn),
       ("expert_name", Json.str en),
       ("email", Json.str em),
       ("phone", jp),
       ("status", Json.str sts),
       ("partnership_start_date", Json.int psd),
       ("revenue_split_percentage", Json.dec rsp),
       ("business_description", jbd),
       ("website", jw),
       ("social_media", Json.strMap sm),
       ("subdomain", jsd),
       ("branding_config", Json.obj bc),
       ("owner_id", jo),
       ("created_by_id", Json.int cb),
       ("created_at", Json.int ca),
       ("updated_at", Json.int ua)] =>
    match optIntOfJson ji, optStrOfJson jp, expertStatusOfString sts,
          optStrOfJson jbd, optStrOfJson jw, optStrOfJson jsd, optIntOfJson jo with
    | some i, some p, some st, some bd, some w, some sd, some o =>
        some { id := i, business_name := bn, expert_name := en, email := em,
               phone := p, status := st, partnership_start_date := psd.toNat,
               revenue_split_percentage := rsp, business_description := bd,
               website := w, social_media := sm, subdomain := sd,
               branding_config := bc, owner_id := o, created_by_id := cb,
               created_at := ca.toNat, updated_at := ua.toNat }
    | _, _, _, _, _, _, _ => none
  | _ => none

/-- Column names of `User` declared server-managed or computed: primary
key, timestamps, and the computed report shares of `FinancialReport`. -/
def serverManagedFields : List String :=
  ["id", "created_at", "updated_at", "generated_at",
   "net_profit", "og_share", "expert_share"]

/-- Field names of `UserCreate` in declaration order (lines 191-196). -/
def userCreateFields : List String :=
  ["email", "password", "name", "role", "permissions"]

/-- Field names of `UserUpdate` in declaration order (lines 199-203). -/
def userUpdateFields : List String :=
  ["name", "role", "is_active", "permissions"]

/-- Field names of `ExpertCreate` in declaration order (lines 206-214). -/
def expertCreateFields : List String :=
  ["business_name", "expert_name", "email", "phone", "business_description",
   "website", "revenue_split_percentage", "subdomain"]

/-- Field names of `ExpertUpdate` in declaration order (lines 217-226). -/
def expertUpdateFields : List String :=
  ["business_name", "expert_name", "email", "phone", "status",
   "business_description", "website", "revenue_split_percentage", "branding_config"]

/-- Field names of `SaleCreate` in declaration order (lines 229-239). -/
def saleCreateFields : List String :=
  ["expert_id", "transaction_type", "gross_amount", "net_amount", "product_name",
   "product_category", "quantity", "customer_id", "customer_country", "sale_date"]

/-- Field names of `OperationalCostCreate` in declaration order (lines 242-251). -/
def operationalCostCreateFields : List String :=
  ["expert_id", "category", "description", "amount", "cost_date", "is_recurring",
   "recurring_frequency", "external_reference", "notes"]

/-- Field names of `OperationalCostUpdate` in declaration order (lines 254-262). -/
def operationalCostUpdateFields : List String :=
  ["category", "description", "amount", "cost_date", "is_recurring",
   "recurring_frequency", "external_reference", "notes"]

/-- The seven Create/Update transfer schemas of the source, as field-name
lists. -/
def transferSchemaFields : List (List String) :=
  [userCreateFields, userUpdateFields, expertCreateFields, expertUpdateFields,
   saleCreateFields, operationalCostCreateFields, operationalCostUpdateFields]

/-- Constraints declared on the persisted `users` row columns (lines
41-43): `email` max 255 plus the regex, `password_hash` max 255 — with
no minimum length — and `name` max 100. -/
def userRowConstraintsOk (u : User) : Bool :=
  lenOk u.email 255 && emailRegexMatches u.email &&
  lenOk u.password_hash 255 && lenOk u.name 100

theorem validateUserCreate_ok (p u : UserCreate)
    (h : validateUserCreate p = Except.ok u) :
    u = p ∧ lenOk p.email 255 = true ∧ emailRegexMatches p.email = true ∧
      8 ≤ p.password.length ∧ p.password.length ≤ 100 ∧ lenOk p.name 100 = true := by
  unfold validateUserCreate at h
  split_ifs at h with h1 h2 h3 h4 h5
  obtain rfl : p = u := Except.ok.inj h
  refine ⟨rfl, ?_, ?_, ?_, ?_, ?_⟩
  · simpa using h1
  · simpa using h2
  · omega
  · omega
  · simpa using h5

theorem validateUserCreate_email_error (p : UserCreate)
    (h : emailRegexMatches p.email = false) :
    validateUserCreate p = Except.error ⟨"email"⟩ := by
  unfold validateUserCreate
  split_ifs with h1 h2 h3 h4 h5 <;> first | rfl | simp [h] at h2

theorem validateUserCreate_password_error (p : UserCreate)
    (h : p.password.length < 8 ∨ 100 < p.password.length) :
    ∃ e : ValidationError, validateUserCreate p = Except.error e := by
  unfold validateUserCreate
  split_ifs with h1 h2 h3 h4 h5
  · exact ⟨_, rfl⟩
  · exact ⟨_, rfl⟩
  · exact ⟨_, rfl⟩
  · exact ⟨_, rfl⟩
  · exact ⟨_, rfl⟩
  · exfalso; omega

theorem validateExpertCreate_ok (p q : ExpertCreate)
    (h : validateExpertCreate p = Except.ok q) :
    q = p ∧ emailRegexMatches p.email = true ∧
      decimalDigitsOk p.revenue_split_percentage 5 = true := by
  unfold validateExpertCreate at h
  split_ifs at h with h1 h2 h3 h4 h5 h6 h7 h8 h9
  obtain rfl : p = q := Except.ok.inj h
  refine ⟨rfl, ?_, ?_⟩
  · simpa using h4
  · simpa using h8

/-- Expert of the spec section-8 example scenario: 70.00% split. -/
def c1Expert : Expert :=
  { id := some 1, business_name := "B", expert_name := "E", email := "e@x.co",
    partnership_start_date := 0, revenue_split_percentage := 7000,
    created_by_id := 1, created_at := 0, updated_at := 0 }

/-- Sale of the example scenario: gross 1000.00, net 900.00. -/
def c1Sale : Sale :=
  { id := some 1, expert_id := 1, gross_amount := 100000, net_amount := 90000,
    sale_date := 0, created_at := 0 }

/-- Cost of the example scenario: 100.00. -/
def c1Cost : OperationalCost :=
  { id := some 1, expert_id := 1, created_by_id := 1,
    category := CostCategory.MARKETING, description := "ads", amount := 10000,
    cost_date := 0, created_at := 0, updated_at := 0 }

/-- C1: every FinancialReport produced by the report generator satisfies
`og_share + expert_share = net_profit`; in particular the section-8
scenario (70.00% expert, one sale of net 900.00, one cost of 100.00)
yields gross_revenue 900.00, total_costs 100.00, net_profit 800.00,
expert_share 560.00 and og_share 240.00 (amounts in hundredths). -/
theorem c1_report_share_identity :
    (∀ (ex : Expert) (sales : List Sale) (costs : List OperationalCost)
        (ps pe : DateTime) (rt : String) (now : DateTime),
        (generateFinancialReport ex sales costs ps pe rt now).og_share
          + (generateFinancialReport ex sales costs ps pe rt now).expert_share
          = (generateFinancialReport ex sales costs ps pe rt now).net_profit)
  ∧ (generateFinancialReport c1Expert [c1Sale] [c1Cost] 0 1 "monthly" 2).gross_revenue = 90000
  ∧ (generateFinancialReport c1Expert [c1Sale] [c1Cost] 0 1 "monthly" 2).total_costs = 10000
  ∧ (generateFinancialReport c1Expert [c1Sale] [c1Cost] 0 1 "monthly" 2).net_profit = 80000
  ∧ (generateFinancialReport c1Expert [c1Sale] [c1Cost] 0 1 "monthly" 2).expert_share = 56000
  ∧ (generateFinancialReport c1Expert [c1Sale] [c1Cost] 0 1 "monthly" 2).og_share = 24000 := by
  refine ⟨?_, by decide, by decide, by decide, by decide, by decide⟩
  intro ex sales costs ps pe rt now
  have key : ∀ a b : Int, a - b + b = a := by intro a b; omega
  simp only [generateFinancialReport]
  exact key _ _

/-- C4: an `OperationalCostUpdate` patch in which only `amount` is set
changes `amount` to the supplied value and leaves every other field of
the record unchanged. -/
theorem c4_patch_amount_only (c : OperationalCost) (a : Cents) :
    (applyOperationalCostUpdate c { amount := some a }).amount = a
  ∧ (applyOperationalCostUpdate c { amount := some a }).category = c.category
  ∧ (applyOperationalCostUpdate c { amount := some a }).description = c.description
  ∧ (applyOperationalCostUpdate c { amount := some a }).cost_date = c.cost_date
  ∧ (applyOperationalCostUpdate c { amount := some a }).is_recurring = c.is_recurring
  ∧ (applyOperationalCostUpdate c { amount := some a }).recurring_frequency = c.recurring_frequency
  ∧ (applyOperationalCostUpdate c { amount := some a }).external_reference = c.external_reference
  ∧ (applyOperationalCostUpdate c { amount := some a }).notes = c.notes
  ∧ (applyOperationalCostUpdate c { amount := some a }).id = c.id
  ∧ (applyOperationalCostUpdate c { amount := some a }).expert_id = c.expert_id
  ∧ (applyOperationalCostUpdate c { amount := some a }).created_by_id = c.created_by_id :=
  ⟨rfl, rfl, rfl, rfl, rfl, rfl, rfl, rfl, rfl, rfl, rfl⟩

/-- ExpertCreate payload with a 150.00% split: 5 digits, 2 decimal
places, outside [0,100]. -/
def c7CreatePayload : ExpertCreate :=
  { business_name := "B", expert_name := "E", email := "e@x.co",
    revenue_split_percentage := 15000 }

/-- ExpertUpdate patch with a negative split of -1.00. -/
def c7UpdatePayload : ExpertUpdate :=
  { revenue_split_percentage := some (-100) }

/-- C7: schema validation of ExpertCreate and ExpertUpdate performs no
range check on `revenue_split_percentage`: a 150.00% create payload and
a -1.00% update patch are both accepted without a ValidationError. -/
theorem c7_no_range_check :
    validateExpertCreate c7CreatePayload = Except.ok c7CreatePayload
  ∧ c7CreatePayload.revenue_split_percentage = 15000
  ∧ (10000 : Cents) < 15000
  ∧ validateExpertUpdate c7UpdatePayload = Except.ok c7UpdatePayload
  ∧ c7UpdatePayload.revenue_split_percentage = some (-100)
  ∧ (-100 : Cents) < 0 :=
  ⟨rfl, rfl, by decide, rfl, rfl, by decide⟩

/-- C8: none of the seven Create/Update transfer schemas carries a
server-managed field: no `id`, no timestamp, no computed share. -/
theorem c8_transfer_schemas_omit_server_fields :
    ∀ f ∈ serverManagedFields, ∀ fs ∈ transferSchemaFields, f ∉ fs := by
  decide

/-- Witness for C8 at the concrete field `id` and schema `UserCreate`. -/
theorem c8_transfer_schemas_omit_server_fields_witness :
    "id" ∉ userCreateFields :=
  c8_transfer_schemas_omit_server_fields "id" (by decide) userCreateFields (by decide)

/-- ExpertUpdate patch setting `email` to a non-email string. -/
def c10Patch : ExpertUpdate :=
  { email := some "not-an-email" }

/-- ExpertCreate payload with the same non-email string, for contrast. -/
def c10Create : ExpertCreate :=
  { business_name := "B", expert_name := "E", email := "not-an-email" }

/-- C10: `ExpertUpdate.email` carries no regex: the string
"not-an-email" (≤ 255 chars, not matching the email regex) is accepted
by ExpertUpdate validation, while the same string is rejected by
ExpertCreate and UserCreate validation, which do carry the regex. -/
theorem c10_update_email_unvalidated :
    validateExpertUpdate c10Patch = Except.ok c10Patch
  ∧ emailRegexMatches "not-an-email" = false
  ∧ lenOk "not-an-email" 255 = true
  ∧ validateExpertCreate c10Create = Except.error ⟨"email"⟩
  ∧ validateUserCreate { email := "not-an-email", password := "longenough", name := "N" }
      = Except.error ⟨"email"⟩ :=
  ⟨rfl, rfl, rfl, rfl, rfl⟩

/-- C2: UserCreate validation succeeds only when `email` matches the
email regex; a payload whose email does not match is rejected with a
ValidationError naming the email field; and the persisted `User.email`
of an accepted payload matches the regex. -/
theorem c2_user_create_email_regex :
    (∀ p u : UserCreate, validateUserCreate p = Except.ok u →
        emailRegexMatches u.email = true)
  ∧ (∀ p : UserCreate, emailRegexMatches p.email = false →
        ∃ e : ValidationError, validateUserCreate p = Except.error e ∧ e.field = "email")
  ∧ (∀ (p u : UserCreate) (hash : String) (rowId : Int) (now : DateTime),
        validateUserCreate p = Except.ok u →
        emailRegexMatches (mkUser u hash rowId now).email = true) := by
  refine ⟨?_, ?_, ?_⟩
  · intro p u h
    obtain ⟨rfl, _, hr, _⟩ := validateUserCreate_ok p u h
    exact hr
  · intro p h
    exact ⟨⟨"email"⟩, validateUserCreate_email_error p h, rfl⟩
  · intro p u hash rowId now h
    obtain ⟨rfl, _, hr, _⟩ := validateUserCreate_ok p u h
    exact hr

/-- Payload with a well-formed email, for the C2 witness. -/
def c2GoodPayload : UserCreate :=
  { email := "user@example.com", password := "s3cretpass", name := "Alice" }

/-- Payload whose email has no `@`, for the C2 witness. -/
def c2BadPayload : UserCreate :=
  { email := "user-at-example.com", password := "s3cretpass", name := "Alice" }

/-- Witness for C2: the accepted payload persists a regex-matching
email; the malformed payload is rejected on the email field. -/
theorem c2_user_create_email_regex_witness :
    emailRegexMatches (mkUser c2GoodPayload "h" 1 0).email = true
  ∧ ∃ e : ValidationError,
      validateUserCreate c2BadPayload = Except.error e ∧ e.field = "email" :=
  ⟨c2_user_create_email_regex.2.2 c2GoodPayload c2GoodPayload "h" 1 0 rfl,
   c2_user_create_email_regex.2.1 c2BadPayload rfl⟩

/-- C9: UserCreate validation accepts a payload only if its password has
between 8 and 100 characters and rejects any other payload with a
ValidationError, while the persisted users row constrains only
`password_hash` with `max_length=255` and no minimum: an empty hash
satisfies every row constraint. -/
theorem c9_password_length_bounds :
    (∀ p u : UserCreate, validateUserCreate p = Except.ok u →
        8 ≤ p.password.length ∧ p.password.length ≤ 100)
  ∧ (∀ p : UserCreate, p.password.length < 8 ∨ 100 < p.password.length →
        ∃ e : ValidationError, validateUserCreate p = Except.error e)
  ∧ userRowConstraintsOk
      { email := "a@b.co", password_hash := "", name := "N",
        created_at := 0, updated_at := 0 } = true := by
  refine ⟨?_, ?_, rfl⟩
  · intro p u h
    obtain ⟨rfl, _, _, h8, h100, _⟩ := validateUserCreate_ok p u h
    exact ⟨h8, h100⟩
  · intro p h
    exact validateUserCreate_password_error p h

/-- Payload with an in-bounds password, for the C9 witness. -/
def c9OkPayload : UserCreate :=
  { email := "bob@mail.com", password := "password123", name := "Bob" }

/-- Payload with a 5-character password, for the C9 witness. -/
def c9ShortPayload : UserCreate :=
  { email := "bob@mail.com", password := "short", name := "Bob" }

/-- Witness for C9: bounds hold for an accepted payload; the short
password is rejected. -/
theorem c9_password_length_bounds_witness :
    (8 ≤ c9OkPayload.password.length ∧ c9OkPayload.password.length ≤ 100)
  ∧ ∃ e : ValidationError, validateUserCreate c9ShortPayload = Except.error e :=
  ⟨c9_password_length_bounds.1 c9OkPayload c9OkPayload rfl,
   c9_password_length_bounds.2.1 c9ShortPayload (Or.inl (by decide))⟩

/-- C6: an ExpertCreate accepted by validation has a
`revenue_split_percentage` of at most 5 digits (2 of them decimal
places, by the hundredths embedding); a payload omitting the field gets
exactly 50.00, and persistence preserves the payload's split, so the
persisted Expert defaults to 50.00 as well. -/
theorem c6_split_default_and_precision :
    (∀ p q : ExpertCreate, validateExpertCreate p = Except.ok q →
        q.revenue_split_percentage.natAbs < 10 ^ 5)
  ∧ (∀ bn en em : String,
        ({ business_name := bn, expert_name := en, email := em } :
            ExpertCreate).revenue_split_percentage = 5000)
  ∧ (∀ (p : ExpertCreate) (creatorId rowId : Int) (now : DateTime),
        (mkExpert p creatorId rowId now).revenue_split_percentage
          = p.revenue_split_percentage)
  ∧ (∀ (bn en em : String) (psd : DateTime) (cb : Int) (ca ua : DateTime),
        ({ business_name := bn, expert_name := en, email := em,
           partnership_start_date := psd, created_by_id := cb,
           created_at := ca, updated_at := ua } : Expert).revenue_split_percentage
          = 5000) := by
  refine ⟨?_, fun bn en em => rfl, fun p c r n => rfl, fun bn en em psd cb ca ua => rfl⟩
  intro p q h
  obtain ⟨rfl, _, hd⟩ := validateExpertCreate_ok p q h
  simpa [decimalDigitsOk] using hd

/-- Payload leaving `revenue_split_percentage` to its default, for the
C6 witness. -/
def c6Payload : ExpertCreate :=
  { business_name := "B", expert_name := "E", email := "e@x.co" }

/-- Witness for C6: the defaulted payload is accepted, its split has at
most 5 digits and equals exactly 50.00. -/
theorem c6_split_default_and_precision_witness :
    c6Payload.revenue_split_percentage.natAbs < 10 ^ 5
  ∧ ({ business_name := "B", expert_name := "E", email := "e@x.co" } :
        ExpertCreate).revenue_split_percentage = 5000 :=
  ⟨c6_split_default_and_precision.1 c6Payload c6Payload rfl,
   c6_split_default_and_precision.2.1 "B" "E" "e@x.co"⟩

/-- C3: inserting a User whose email already exists, or an Expert whose
non-null subdomain already exists, fails with a uniqueness conflict and
leaves the store unchanged. -/
theorem c3_uniqueness :
    (∀ (st : Store) (u : User), (∃ v ∈ st.users, v.email = u.email) →
        insertUser st u = (st, Except.error StoreError.uniquenessConflict))
  ∧ (∀ (st : Store) (e : Expert) (s : String), e.subdomain = some s →
        (∃ f ∈ st.experts, f.subdomain = some s) →
        insertExpert st e = (st, Except.error StoreError.uniquenessConflict)) := by
  constructor
  · rintro st u ⟨v, hv, he⟩
    unfold insertUser
    have hc : st.users.any (fun w => w.email == u.email) = true :=
      List.any_eq_true.mpr ⟨v, hv, by simp [he]⟩
    simp [hc]
  · rintro st e s hs ⟨f, hf, hfs⟩
    unfold insertExpert
    have h1 : e.subdomain.isSome = true := by simp [hs]
    have h2 : st.experts.any (fun g => g.subdomain == e.subdomain) = true :=
      List.any_eq_true.mpr ⟨f, hf, by simp [hs, hfs]⟩
    simp [h1, h2]

/-- Stored user, for the C3 witness. -/
def c3User1 : User :=
  { email := "dup@mail.com", password_hash := "h1", name := "U1",
    created_at := 0, updated_at := 0 }

/-- Second user with the same email, for the C3 witness. -/
def c3User2 : User :=
  { email := "dup@mail.com", password_hash := "h2", name := "U2",
    created_at := 1, updated_at := 1 }

/-- Stored expert holding subdomain "panel", for the C3 witness. -/
def c3Expert1 : Expert :=
  { business_name := "B1", expert_name := "E1", email := "a@b.co",
    partnership_start_date := 0, subdomain := some "panel",
    created_by_id := 1, created_at := 0, updated_at := 0 }

/-- Second expert claiming subdomain "panel", for the C3 witness. -/
def c3Expert2 : Expert :=
  { business_name := "B2", expert_name := "E2", email := "c@d.co",
    partnership_start_date := 0, subdomain := some "panel",
    created_by_id := 1, created_at := 0, updated_at := 0 }

/-- Store already holding the duplicate targets, for the C3 witness. -/
def c3Store : Store :=
  { users := [c3User1], experts := [c3Expert1] }

/-- Witness for C3: both duplicate insertions conflict and leave the
store unchanged. -/
theorem c3_uniqueness_witness :
    insertUser c3Store c3User2 = (c3Store, Except.error StoreError.uniquenessConflict)
  ∧ insertExpert c3Store c3Expert2 = (c3Store, Except.error StoreError.uniquenessConflict) :=
  ⟨c3_uniqueness.1 c3Store c3User2 ⟨c3User1, by simp [c3Store], rfl⟩,
   c3_uniqueness.2 c3Store c3Expert2 "panel" rfl ⟨c3Expert1, by simp [c3Store], rfl⟩⟩

/-- The Expert of the round-trip property: branding config with primary
color and logo URL, exact 62.50 split. -/
def c5Expert : Expert :=
  { id := some 1, business_name := "OG Works", expert_name := "Eva",
    email := "eva@ogworks.co", partnership_start_date := 100,
    revenue_split_percentage := 6250,
    branding_config := [("primaryColor", Json.str "#FF0000"),
                        ("logoUrl", Json.str "https://x/y.png")],
    created_by_id := 7, created_at := 100, updated_at := 100 }

/-- C5: deserialization after serialization is the identity on every
Expert; in particular the Expert with the given branding config and a
62.50 split round-trips to exactly equal values, the split carried as
the exact decimal 6250 hundredths — the representation has no floats,
so no drift such as 62.49999999 can occur. -/
theorem c5_serialization_round_trip :
    (∀ e : Expert, deserializeExpert (serializeExpert e) = some e)
  ∧ deserializeExpert (serializeExpert c5Expert) = some c5Expert
  ∧ c5Expert.revenue_split_percentage = (6250 : Cents)
  ∧ serializeExpert c5Expert
      = serializeExpert { c5Expert with revenue_split_percentage := 6250 } := by
  refine ⟨?_, rfl, rfl, rfl⟩
  intro e
  obtain ⟨i, bn, en, em, ph, st, psd, rsp, bd, w, sm, sd, bc, oi, cb, ca, ua⟩ := e
  rcases i with _ | i <;> rcases ph with _ | ph <;> rcases bd with _ | bd <;>
    rcases w with _ | w <;> rcases sd with _ | sd <;> rcases oi with _ | oi <;>
    cases st <;> rfl
